import Mathlib

set_option maxHeartbeats 1000000
set_option maxRecDepth 8192

/-!
Verification development for the skyline Maxwell3D command-processing front end:
a shallow embedding of `soc/gm20b/engines/maxwell_3d.cpp`,
`gpu/context/graphics_context.h`, `gpu/texture/texture.h` and
`gpu/texture/format.h`, together with theorems about the embedded operations.

Machine integers are embedded as `Nat` (or `Int` where C++ arithmetic mixes
signs), with explicit `% 2^w` reductions wherever the C++ computation can wrap.
Host floating-point viewport arithmetic is embedded over `ℚ`; the formulas under
scrutiny are algebraic identities on the written values.
-/

namespace Skyline

def U8_MOD : Nat := 2 ^ 8
def U16_MOD : Nat := 2 ^ 16
def U32_MOD : Nat := 2 ^ 32
def U64_MOD : Nat := 2 ^ 64

/-- Pointwise update of an index-addressed word file (`raw[k] = v`). -/
def upd (f : Nat → Nat) (k v : Nat) : Nat → Nat := fun i => if i = k then v else f i

/-- u16 − u16 in C++: both operands promote to `int`, the (possibly negative)
difference converts back to `u32` modulo `2^32` when used in `u32` arithmetic. -/
def u32OfInt (i : Int) : Nat := (i.emod (2 ^ 32)).toNat

/-! ## gpu/texture: dimensions, formats, tiling, guest textures (texture.h, format.h) -/

/-- A single host-visible byte range, as produced by the address translator. -/
structure Span where
  addr : Nat
  size : Nat
deriving DecidableEq

/-- texture::TileMode from texture.h. -/
inductive TileMode
  | linear
  | pitch
  | block
deriving DecidableEq

/-- texture::TileConfig from texture.h (the `pitch` union member is not
exercised by the render-target path and is not represented). -/
structure TileConfig where
  mode : TileMode
  blockHeight : Nat
  blockDepth : Nat
deriving DecidableEq

/-- The Vulkan format tags used by format.h. -/
inductive VkFormat
  | undefined
  | r8g8b8a8Unorm
  | r5g6b5UnormPack16
deriving DecidableEq

/-- texture::FormatBase from texture.h. -/
structure FormatBase where
  bpb : Nat
  blockHeight : Nat
  blockWidth : Nat
  vkFormat : VkFormat
deriving DecidableEq

/-- format::RGBA8888Unorm from format.h. -/
def RGBA8888Unorm : FormatBase := ⟨4, 1, 1, .r8g8b8a8Unorm⟩

/-- format::RGB565Unorm from format.h. -/
def RGB565Unorm : FormatBase := ⟨2, 1, 1, .r5g6b5UnormPack16⟩

/-- texture::Dimensions from texture.h. -/
structure Dimensions where
  width : Nat
  height : Nat
  depth : Nat
deriving DecidableEq

/-- FormatBase::GetSize: `(((width / blockWidth) * (height / blockHeight)) * bpb) * depth`,
with every multiplication performed in `u32` before widening to `size_t`. -/
def FormatBase.getSize (f : FormatBase) (d : Dimensions) : Nat :=
  ((d.width / f.blockWidth) * (d.height / f.blockHeight)) % U32_MOD
    * f.bpb % U32_MOD * d.depth % U32_MOD

/-- GuestTexture from texture.h; `format` is the nullable `texture::Format`
pointer wrapper, `baseArrayLayer` and `layerCount` are `u16` fields and
`layerStride` is `u32`. -/
structure GuestTexture where
  mappings : List Span
  dimensions : Dimensions
  format : Option FormatBase
  tileConfig : TileConfig
  textureType : Nat
  baseArrayLayer : Nat
  layerCount : Nat
  layerStride : Nat
deriving DecidableEq

/-- An opaque handle standing for gpu::TextureView; the texture manager
collaborator is a parameter producing these. -/
structure TextureView where
  id : Nat
deriving DecidableEq

/-! ## gpu/context: GraphicsContext render-target state (graphics_context.h) -/

/-- GraphicsContext::RenderTarget: the 64-bit GPU address is a union over the
two 32-bit halves, so it is kept as the two halves here. -/
structure RenderTarget where
  disabled : Bool
  gpuAddressLow : Nat
  gpuAddressHigh : Nat
  guest : GuestTexture
  view : Option TextureView
deriving DecidableEq

/-- Reading the union's `u64 gpuAddress` member. -/
def RenderTarget.gpuAddress (rt : RenderTarget) : Nat :=
  rt.gpuAddressHigh * U32_MOD + rt.gpuAddressLow

/-- GraphicsContext::SetRenderTargetAddressHigh. -/
def setRenderTargetAddressHigh (rt : RenderTarget) (high : Nat) : RenderTarget :=
  { rt with gpuAddressHigh := high
            guest := { rt.guest with mappings := [] }
            view := none }

/-- GraphicsContext::SetRenderTargetAddressLow. -/
def setRenderTargetAddressLow (rt : RenderTarget) (low : Nat) : RenderTarget :=
  { rt with gpuAddressLow := low
            guest := { rt.guest with mappings := [] }
            view := none }

/-- GraphicsContext::SetRenderTargetWidth (note: mappings are not cleared). -/
def setRenderTargetWidth (rt : RenderTarget) (value : Nat) : RenderTarget :=
  { rt with guest := { rt.guest with dimensions := { rt.guest.dimensions with width := value } }
            view := none }

/-- GraphicsContext::SetRenderTargetHeight (note: mappings are not cleared). -/
def setRenderTargetHeight (rt : RenderTarget) (value : Nat) : RenderTarget :=
  { rt with guest := { rt.guest with dimensions := { rt.guest.dimensions with height := value } }
            view := none }

/-- Modelled from the spec: the raw value of
`maxwell3d::RenderTarget::ColorFormat::None`; the enum lives in
`soc/gm20b/engines/maxwell/types.h`, which is not among the sources. -/
def ColorFormatNone : Nat := 0

/-- Modelled from the spec: the raw value of
`maxwell3d::RenderTarget::ColorFormat::R8G8B8A8Unorm`; the enum lives in
`soc/gm20b/engines/maxwell/types.h`, which is not among the sources. -/
def ColorFormatR8G8B8A8Unorm : Nat := 0xD5

/-- GraphicsContext::SetRenderTargetFormat. The fatal-translation throw happens
inside the lambda, before any field of the slot is mutated, so on the error
path the slot is returned unchanged. -/
def setRenderTargetFormat (rt : RenderTarget) (format : Nat) :
    RenderTarget × Option String :=
  if format = ColorFormatNone then
    ({ rt with guest := { rt.guest with format := none }
               disabled := true
               view := none }, none)
  else if format = ColorFormatR8G8B8A8Unorm then
    ({ rt with guest := { rt.guest with format := some RGBA8888Unorm }
               disabled := false
               view := none }, none)
  else (rt, some "Cannot translate the supplied RT format")

/-- GraphicsContext::SetRenderTargetTileMode: the linear path assigns only the
mode, the block path replaces the whole config; `static_cast<u8>(1U << log2)`
wraps modulo `2^8`. -/
def setRenderTargetTileMode (rt : RenderTarget) (isLinear : Bool)
    (blockHeightLog2 blockDepthLog2 : Nat) : RenderTarget :=
  let config :=
    if isLinear then { rt.guest.tileConfig with mode := TileMode.linear }
    else { mode := TileMode.block
           blockHeight := (1 <<< blockHeightLog2) % U8_MOD
           blockDepth := (1 <<< blockDepthLog2) % U8_MOD }
  { rt with guest := { rt.guest with tileConfig := config }, view := none }

/-- GraphicsContext::SetRenderTargetArrayMode: the layer count is written
before the volume check throws, and the view is reset only on the
non-throwing path. -/
def setRenderTargetArrayMode (rt : RenderTarget) (volume : Bool) (layerCount : Nat) :
    RenderTarget × Option String :=
  let rt1 := { rt with guest := { rt.guest with layerCount := layerCount % U16_MOD } }
  if volume then (rt1, some "RT Array Volumes are not supported")
  else ({ rt1 with view := none }, none)

/-- GraphicsContext::SetRenderTargetLayerStride: `layerStrideLsr2 << 2` in u32. -/
def setRenderTargetLayerStride (rt : RenderTarget) (layerStrideLsr2 : Nat) : RenderTarget :=
  { rt with guest := { rt.guest with layerStride := (layerStrideLsr2 <<< 2) % U32_MOD }
            view := none }

/-- GraphicsContext::SetRenderTargetBaseLayer: the `u16` field is assigned
(truncating the `u32` argument) before the range check throws, and the view is
reset only on the non-throwing path. -/
def setRenderTargetBaseLayer (rt : RenderTarget) (baseArrayLayer : Nat) :
    RenderTarget × Option String :=
  let rt1 := { rt with guest := { rt.guest with baseArrayLayer := baseArrayLayer % U16_MOD } }
  if 65535 < baseArrayLayer then
    (rt1, some "Base array layer exceeds the range of array count")
  else ({ rt1 with view := none }, none)

/-- The byte length computed by GetRenderTarget:
`max(layerStride * (layerCount - baseArrayLayer), format->GetSize(dimensions))`,
the first operand a `u32` product of `layerStride` with the int-promoted
`u16` difference converted back to `u32`. -/
def rtSizeBytes (g : GuestTexture) (f : FormatBase) : Nat :=
  Nat.max ((g.layerStride * u32OfInt ((g.layerCount : Int) - (g.baseArrayLayer : Int))) % U32_MOD)
    (f.getSize g.dimensions)

/-- GraphicsContext::GetRenderTarget, parameterised over the address translator
(`gmmu.Translate`) and the texture cache (`gpu.texture.FindOrCreate`).
Returns `none` exactly when the source would dereference a null
`texture::Format` (undefined behaviour), otherwise `some` of the returned
view (absent for a disabled slot) and the updated slot. -/
def getRenderTarget (translate : Nat → Nat → List Span)
    (findOrCreate : GuestTexture → TextureView) (rt : RenderTarget) :
    Option (Option TextureView × RenderTarget) :=
  if rt.disabled then some (none, rt)
  else
    match rt.view with
    | some v => some (some v, rt)
    | none =>
      if rt.guest.mappings.isEmpty then
        match rt.guest.format with
        | none => none
        | some f =>
          let size := rtSizeBytes rt.guest f
          let guest1 := { rt.guest with mappings := translate rt.gpuAddress size }
          let v := findOrCreate guest1
          some (some v, { rt with guest := guest1, view := some v })
      else
        let v := findOrCreate rt.guest
        some (some v, { rt with view := some v })

/-! ## gpu/context: viewports (graphics_context.h), embedded over ℚ -/

/-- vk::Viewport as mutated by the viewport setters. -/
structure Viewport where
  x : ℚ
  y : ℚ
  width : ℚ
  height : ℚ
  minDepth : ℚ
  maxDepth : ℚ
deriving DecidableEq

/-- GraphicsContext::SetViewportX. -/
def setViewportX (vp : Viewport) (scale translate : ℚ) : Viewport :=
  { vp with x := scale - translate, width := scale * 2 }

/-- GraphicsContext::SetViewportY. -/
def setViewportY (vp : Viewport) (scale translate : ℚ) : Viewport :=
  { vp with y := scale - translate, height := scale * 2 }

/-- GraphicsContext::SetViewportZ. -/
def setViewportZ (vp : Viewport) (scale translate : ℚ) : Viewport :=
  { vp with minDepth := translate, maxDepth := scale + translate }

/-! ## gpu/context: scissors (graphics_context.h) -/

/-- vk::Rect2D with an i32 offset and u32 extent. -/
structure Rect2D where
  offsetX : Int
  offsetY : Int
  extentWidth : Nat
  extentHeight : Nat
deriving DecidableEq

/-- GraphicsContext::DefaultScissor: zero offset, i32-max extents. -/
def DefaultScissor : Rect2D := ⟨0, 0, 2147483647, 2147483647⟩

/-- maxwell3d::Scissor::ScissorBounds: two 16-bit bounds. -/
structure ScissorBounds where
  minimum : Nat
  maximum : Nat
deriving DecidableEq

/-- maxwell3d::Scissor: the enable flag plus the two per-axis bounds. -/
structure MaxwellScissor where
  enable : Bool
  horizontal : ScissorBounds
  vertical : ScissorBounds
deriving DecidableEq

/-- GraphicsContext::SetScissor, including the source's initializer list
verbatim: `.extent.height` is assigned from `scissor->horizontal.maximum`. -/
def setScissor (r : Rect2D) (scissor : Option MaxwellScissor) : Rect2D :=
  match scissor with
  | some s =>
      { offsetX := s.horizontal.minimum
        extentWidth := s.horizontal.maximum
        offsetY := s.vertical.minimum
        extentHeight := s.horizontal.maximum }
  | none => DefaultScissor

/-- GraphicsContext::SetScissorHorizontal. -/
def setScissorHorizontal (r : Rect2D) (bounds : ScissorBounds) : Rect2D :=
  { r with offsetX := bounds.minimum, extentWidth := bounds.maximum }

/-- GraphicsContext::SetScissorVertical. -/
def setScissorVertical (r : Rect2D) (bounds : ScissorBounds) : Rect2D :=
  { r with offsetY := bounds.minimum, extentHeight := bounds.maximum }

/-! ## soc/gm20b: the Maxwell3D command processor (maxwell_3d.cpp)

The register layout (`U32_OFFSET(Registers, field)` for every field) comes from
`soc/gm20b/engines/maxwell/types.h` and the engine constants from
`soc/gm20b/engines/maxwell_3d.h`, neither of which is among the sources; the
offset and capacity constants below are therefore modelled from the spec's
data-model section, with the hardware's canonical method indices. All claims
depend only on the constants being distinct registers, not on their values. -/

/-- Modelled from the spec: the number of guest-addressable register methods
(`Maxwell3D::RegisterCount`, from the missing maxwell_3d.h). -/
def RegisterCount : Nat := 0xE00

/-- Modelled from the spec: the capacity of the macro start-offset table
(`macroPositions.size()`, from the missing maxwell_3d.h). -/
def MacroPositionCount : Nat := 0x80

/-- Modelled from the spec: the capacity of the macro instruction store
(`macroCode.size()`, from the missing maxwell_3d.h). -/
def MacroCodeCount : Nat := 0x2000

/-- Modelled from the spec: offset of `mme.instructionRamPointer`. -/
def instructionRamPointerOffset : Nat := 0x45

/-- Modelled from the spec: offset of `mme.instructionRamLoad`. -/
def instructionRamLoadOffset : Nat := 0x46

/-- Modelled from the spec: offset of `mme.startAddressRamPointer`. -/
def startAddressRamPointerOffset : Nat := 0x47

/-- Modelled from the spec: offset of `mme.startAddressRamLoad`. -/
def startAddressRamLoadOffset : Nat := 0x48

/-- Modelled from the spec: offset of `mme.shadowRamControl`. -/
def shadowRamControlOffset : Nat := 0x49

/-- Modelled from the spec: offset of `syncpointAction`. -/
def syncpointActionOffset : Nat := 0xB2

/-- Modelled from the spec: offset of `renderTargets[0]`; each of the 8 render
targets occupies 0x10 words, the cased fields being the first nine
(address.high, address.low, width, height, format, tileMode, arrayMode,
layerStrideLsr2, baseLayer). -/
def renderTargetsOffset : Nat := 0x200

/-- Modelled from the spec: offset of `viewportTransforms[0]`; each of the 16
transforms occupies 8 words (scaleX, scaleY, scaleZ, translateX, translateY,
translateZ, swizzles, subpixelPrecisionBias). -/
def viewportTransformsOffset : Nat := 0x280

/-- Modelled from the spec: offset of `clearColorValue[0]` (4 words). -/
def clearColorValueOffset : Nat := 0x360

/-- Modelled from the spec: offset of `scissors[0]`; each of the 16 scissors
occupies 4 words (enable, horizontal, vertical, padding). -/
def scissorsOffset : Nat := 0x380

/-- Modelled from the spec: offset of `renderTargetControl`. -/
def renderTargetControlOffset : Nat := 0x487

/-- Modelled from the spec: offset of `clearBuffers`. -/
def clearBuffersOffset : Nat := 0x674

/-- Modelled from the spec: offset of `semaphore` (address.high, address.low,
payload, info). -/
def semaphoreOffset : Nat := 0x6C0

/-- Modelled from the spec: offset of `firmwareCall[4]`. -/
def firmwareCall4Offset : Nat := 0x8C4

/-- The register written by the firmware-call stub (`registers.raw[0xD00] = 1`,
literal in maxwell_3d.cpp). -/
def firmwareResultOffset : Nat := 0xD00

/-- Modelled from the spec: `type::MmeShadowRamControl::MethodTrack`. -/
def MmeShadowRamControlTrack : Nat := 0

/-- Modelled from the spec: `type::MmeShadowRamControl::MethodTrackWithFilter`. -/
def MmeShadowRamControlTrackWithFilter : Nat := 1

/-- Modelled from the spec: `type::MmeShadowRamControl::MethodPassthrough`. -/
def MmeShadowRamControlPassthrough : Nat := 2

/-- Modelled from the spec: `type::MmeShadowRamControl::MethodReplay`. -/
def MmeShadowRamControlReplay : Nat := 3

/-- A call made into the GraphicsContext by the value-change dispatch switch.
Viewport and scissor events carry the raw 32-bit words handed to the context
(the host-side float decoding is the context's concern, see the ℚ model). -/
inductive CtxEvent
  | rtAddressHigh (i v : Nat)
  | rtAddressLow (i v : Nat)
  | rtWidth (i v : Nat)
  | rtHeight (i v : Nat)
  | rtFormat (i v : Nat)
  | rtTileMode (i v : Nat)
  | rtArrayMode (i v : Nat)
  | rtLayerStride (i v : Nat)
  | rtBaseLayer (i v : Nat)
  | viewportX (i scale translate : Nat)
  | viewportY (i scale translate : Nat)
  | viewportZ (i scale translate : Nat)
  | clearColor (i v : Nat)
  | scissorEnable (i : Nat) (rect : Option (Nat × Nat))
  | scissorHorizontal (i v : Nat)
  | scissorVertical (i v : Nat)
  | rtControl (v : Nat)
deriving DecidableEq

/-- A write-triggered side effect of the second, always-on switch. Semaphore
releases are kept opaque: their guest-memory write path is external and the
timestamp arithmetic is modelled separately as `semaphoreTimestamp`. -/
inductive Effect
  | macroCodeStore (p v : Nat)
  | macroPositionStore (p v : Nat)
  | syncpointIncrement (v : Nat)
  | clearBuffers (v : Nat)
  | semaphoreInfo (v : Nat)
  | firmwareCall (v : Nat)
deriving DecidableEq

/-- The per-engine state mutated by `Maxwell3D::CallMethod`: the register file,
the shadow register file, the macro invocation accumulator and the macro
program store. -/
structure Maxwell3DState where
  registers : Nat → Nat
  shadowRegisters : Nat → Nat
  macroIndex : Nat
  macroArguments : List Nat
  macroPositions : Nat → Nat
  macroCode : Nat → Nat

/-- Whether the method hits one of the cases of the value-change dispatch
switch (each of which ends in `return`, skipping the always-on switch). -/
def ValueChangeMatches (m : Nat) : Prop :=
  m = shadowRamControlOffset
  ∨ (renderTargetsOffset ≤ m ∧ m < renderTargetsOffset + 8 * 0x10
      ∧ (m - renderTargetsOffset) % 0x10 ≤ 8)
  ∨ (viewportTransformsOffset ≤ m ∧ m < viewportTransformsOffset + 16 * 8
      ∧ (m - viewportTransformsOffset) % 8 ≤ 5)
  ∨ (clearColorValueOffset ≤ m ∧ m < clearColorValueOffset + 4)
  ∨ (scissorsOffset ≤ m ∧ m < scissorsOffset + 16 * 4
      ∧ (m - scissorsOffset) % 4 ≤ 2)
  ∨ m = renderTargetControlOffset

instance (m : Nat) : Decidable (ValueChangeMatches m) := by
  unfold ValueChangeMatches; infer_instance

/-- The GraphicsContext call made by the value-change switch for method `m`
with (post-shadow) argument `a`; `regs` is the register file after the
unconditional store, from which the callbacks read the sibling components
(viewport scale/translate, scissor bounds, render-target control). -/
def valueChangeEvents (regs : Nat → Nat) (m a : Nat) : List CtxEvent :=
  if renderTargetsOffset ≤ m ∧ m < renderTargetsOffset + 8 * 0x10 then
    let i := (m - renderTargetsOffset) / 0x10
    match (m - renderTargetsOffset) % 0x10 with
    | 0 => [.rtAddressHigh i a]
    | 1 => [.rtAddressLow i a]
    | 2 => [.rtWidth i a]
    | 3 => [.rtHeight i a]
    | 4 => [.rtFormat i a]
    | 5 => [.rtTileMode i a]
    | 6 => [.rtArrayMode i a]
    | 7 => [.rtLayerStride i a]
    | 8 => [.rtBaseLayer i a]
    | _ => []
  else if viewportTransformsOffset ≤ m ∧ m < viewportTransformsOffset + 16 * 8 then
    let i := (m - viewportTransformsOffset) / 8
    let base := viewportTransformsOffset + 8 * i
    match (m - viewportTransformsOffset) % 8 with
    | 0 => [.viewportX i a (regs (base + 3))]
    | 1 => [.viewportY i a (regs (base + 4))]
    | 2 => [.viewportZ i a (regs (base + 5))]
    | 3 => [.viewportX i (regs base) a]
    | 4 => [.viewportY i (regs (base + 1)) a]
    | 5 => [.viewportZ i (regs (base + 2)) a]
    | _ => []
  else if clearColorValueOffset ≤ m ∧ m < clearColorValueOffset + 4 then
    [.clearColor (m - clearColorValueOffset) a]
  else if scissorsOffset ≤ m ∧ m < scissorsOffset + 16 * 4 then
    let i := (m - scissorsOffset) / 4
    let base := scissorsOffset + 4 * i
    match (m - scissorsOffset) % 4 with
    | 0 => [.scissorEnable i (if a ≠ 0 then some (regs (base + 1), regs (base + 2)) else none)]
    | 1 => [.scissorHorizontal i a]
    | 2 => [.scissorVertical i a]
    | _ => []
  else if m = renderTargetControlOffset then [.rtControl (regs m)]
  else []

/-- The outcome of the always-on (write-triggered side effect) switch. -/
structure AlwaysOnResult where
  regs : Nat → Nat
  code : Nat → Nat
  positions : Nat → Nat
  effects : List Effect
  error : Option String

/-- The second, always-on switch of `Maxwell3D::CallMethod`: macro RAM
appends (fatal when the store is exhausted, with the pointer registers
`instructionRamPointer`/`startAddressRamPointer` incremented on success),
syncpoint increment, buffer-clear trigger, semaphore operation and the
firmware-call compatibility stub. -/
def alwaysOnSwitch (regs code positions : Nat → Nat) (m a : Nat) : AlwaysOnResult :=
  if m = instructionRamLoadOffset then
    let p := regs instructionRamPointerOffset
    if MacroCodeCount ≤ p then ⟨regs, code, positions, [], some "Macro memory is full!"⟩
    else ⟨upd regs instructionRamPointerOffset ((p + 1) % U32_MOD), upd code p a,
          positions, [.macroCodeStore p a], none⟩
  else if m = startAddressRamLoadOffset then
    let p := regs startAddressRamPointerOffset
    if MacroPositionCount ≤ p then
      ⟨regs, code, positions, [], some "Maximum amount of macros reached!"⟩
    else ⟨upd regs startAddressRamPointerOffset ((p + 1) % U32_MOD), code,
          upd positions p a, [.macroPositionStore p a], none⟩
  else if m = syncpointActionOffset then
    ⟨regs, code, positions, [.syncpointIncrement a], none⟩
  else if m = clearBuffersOffset then
    ⟨regs, code, positions, [.clearBuffers (regs m)], none⟩
  else if m = semaphoreOffset + 3 then
    ⟨regs, code, positions, [.semaphoreInfo a], none⟩
  else if m = firmwareCall4Offset then
    ⟨upd regs firmwareResultOffset 1, code, positions, [.firmwareCall a], none⟩
  else ⟨regs, code, positions, [], none⟩

/-- The observable outcome of one `CallMethod` invocation: the new engine
state, whether the value-change dispatch switch was executed, the
GraphicsContext calls it made, the always-on side effects, the macro
interpreter invocations (start offset, argument list) and a fatal error, if
one was thrown (mutations made before the throw persist). -/
structure CallOutput where
  state : Maxwell3DState
  dispatchRan : Bool
  ctxEvents : List CtxEvent
  effects : List Effect
  macroRuns : List (Nat × List Nat)
  error : Option String

/-- `Maxwell3D::CallMethod(params)`. Methods at or above `RegisterCount` take
the macro path; register methods apply the shadow-RAM policy (bypassed for the
shadow-control register itself), store unconditionally, run the value-change
switch only on non-redundant writes (its cases `return` early), and otherwise
fall through to the always-on switch. -/
def callMethod (s : Maxwell3DState) (method argument : Nat) (lastCall : Bool) :
    CallOutput :=
  if RegisterCount ≤ method then
    let idx := if method % 2 = 0 then ((method - RegisterCount) / 2) % MacroPositionCount
               else s.macroIndex
    let args := s.macroArguments ++ [argument]
    if lastCall then
      { state := { s with macroIndex := 0, macroArguments := [] }
        dispatchRan := false, ctxEvents := [], effects := []
        macroRuns := [(s.macroPositions idx, args)], error := none }
    else
      { state := { s with macroIndex := idx, macroArguments := args }
        dispatchRan := false, ctxEvents := [], effects := [], macroRuns := [], error := none }
  else
    let mode := s.shadowRegisters shadowRamControlOffset
    let arg :=
      if method ≠ shadowRamControlOffset ∧ mode = MmeShadowRamControlReplay then
        s.shadowRegisters method
      else argument
    let shadow1 :=
      if method ≠ shadowRamControlOffset
          ∧ (mode = MmeShadowRamControlTrack ∨ mode = MmeShadowRamControlTrackWithFilter) then
        upd s.shadowRegisters method argument
      else s.shadowRegisters
    let regs1 := upd s.registers method arg
    if s.registers method = arg then
      -- redundant write: the value-change switch is skipped entirely
      let r := alwaysOnSwitch regs1 s.macroCode s.macroPositions method arg
      { state := { s with registers := r.regs, shadowRegisters := shadow1
                          macroCode := r.code, macroPositions := r.positions }
        dispatchRan := false, ctxEvents := [], effects := r.effects
        macroRuns := [], error := r.error }
    else if ValueChangeMatches method then
      -- a value-change case matched and returned early
      let shadow2 :=
        if method = shadowRamControlOffset then upd shadow1 shadowRamControlOffset arg
        else shadow1
      { state := { s with registers := regs1, shadowRegisters := shadow2 }
        dispatchRan := true, ctxEvents := valueChangeEvents regs1 method arg
        effects := [], macroRuns := [], error := none }
    else
      -- the value-change switch ran but fell through; the always-on switch follows
      let r := alwaysOnSwitch regs1 s.macroCode s.macroPositions method arg
      { state := { s with registers := r.regs, shadowRegisters := shadow1
                          macroCode := r.code, macroPositions := r.positions }
        dispatchRan := true, ctxEvents := [], effects := r.effects
        macroRuns := [], error := r.error }

/-- The argument `CallMethod` actually stores for a register method: the
caller's argument unless the shadow mode is Replay (and the method is not the
shadow-control register itself), in which case the recorded shadow value. -/
def effectiveArg (s : Maxwell3DState) (m a : Nat) : Nat :=
  if m ≠ shadowRamControlOffset
      ∧ s.shadowRegisters shadowRamControlOffset = MmeShadowRamControlReplay then
    s.shadowRegisters m
  else a

/-! ## Maxwell3D::WriteSemaphoreResult timestamp arithmetic (maxwell_3d.cpp) -/

/-- The four-word semaphore timestamp:
`(nsTime / 625) * 384 + ((nsTime % 625) * 384) / 625` in `u64` arithmetic. -/
def semaphoreTimestamp (ns : Nat) : Nat :=
  ((ns / 625 * 384) % U64_MOD + ((ns % 625 * 384) % U64_MOD) / 625) % U64_MOD

/-! ## Concrete sample instances, used to exercise the theorems -/

/-- A concrete render-target slot with one resolved mapping and a cached view. -/
def sampleRenderTarget : RenderTarget :=
  { disabled := false
    gpuAddressLow := 0x2000
    gpuAddressHigh := 1
    guest := { mappings := [⟨0x7000, 0x100⟩]
               dimensions := ⟨64, 32, 1⟩
               format := some RGBA8888Unorm
               tileConfig := ⟨TileMode.block, 16, 1⟩
               textureType := 0
               baseArrayLayer := 5
               layerCount := 8
               layerStride := 0x1000 }
    view := some ⟨7⟩ }

/-- The same slot with no resolved mappings and no cached view. -/
def sampleRenderTargetUnresolved : RenderTarget :=
  { sampleRenderTarget with
      guest := { sampleRenderTarget.guest with mappings := [] }
      view := none }

/-- A concrete address translator returning one covering range. -/
def sampleTranslate : Nat → Nat → List Span := fun a n => [⟨a, n⟩]

/-- A concrete texture cache handing out views keyed by the mapping count. -/
def sampleFindOrCreate : GuestTexture → TextureView := fun g => ⟨g.mappings.length + 100⟩

/-- The scissor input exhibiting the `SetScissor` height slip: distinct
horizontal and vertical maxima. -/
def failingScissor : MaxwellScissor := ⟨true, ⟨1, 10⟩, ⟨2, 20⟩⟩

/-- A concrete engine state: zeroed register files and an empty accumulator
(the shadow mode reads as MethodTrack = 0). -/
def initMaxwellState : Maxwell3DState :=
  { registers := fun _ => 0
    shadowRegisters := fun _ => 0
    macroIndex := 0
    macroArguments := []
    macroPositions := fun _ => 0
    macroCode := fun _ => 0 }

/-- A concrete engine state in Replay mode with a recorded shadow value 42 at
method 0x50. -/
def replayMaxwellState : Maxwell3DState :=
  { initMaxwellState with
      shadowRegisters :=
        upd (upd (fun _ => 0) shadowRamControlOffset MmeShadowRamControlReplay) 0x50 42 }

/-- A concrete engine state in Passthrough mode (no shadow interaction). -/
def passthroughMaxwellState : Maxwell3DState :=
  { initMaxwellState with
      shadowRegisters := upd (fun _ => 0) shadowRamControlOffset MmeShadowRamControlPassthrough }

/-! ## Helper lemmas -/

theorem upd_same (f : Nat → Nat) (k v : Nat) : upd f k v k = v := by
  simp [upd]

theorem upd_other (f : Nat → Nat) (k v i : Nat) (h : i ≠ k) : upd f k v i = f i := by
  simp [upd, h]

/-- The always-on switch never rewrites the register addressed by the method
itself: its register writes hit only the two macro RAM pointers and the
firmware result word, each a different register from its own case's method. -/
theorem alwaysOnSwitch_regs_self (regs code positions : Nat → Nat) (m a : Nat) :
    (alwaysOnSwitch regs code positions m a).regs m = regs m := by
  unfold alwaysOnSwitch
  dsimp only
  split_ifs <;>
    simp_all [upd, instructionRamLoadOffset, instructionRamPointerOffset,
      startAddressRamLoadOffset, startAddressRamPointerOffset, firmwareCall4Offset,
      firmwareResultOffset]

/-- The always-on switch leaves every register other than the two macro RAM
pointers and the firmware result word untouched. -/
theorem alwaysOnSwitch_regs_other (regs code positions : Nat → Nat) (m a k : Nat)
    (h1 : k ≠ instructionRamPointerOffset) (h2 : k ≠ startAddressRamPointerOffset)
    (h3 : k ≠ firmwareResultOffset) :
    (alwaysOnSwitch regs code positions m a).regs k = regs k := by
  unfold alwaysOnSwitch
  dsimp only
  split_ifs <;> simp_all [upd]

/-- After a register-method call, the stored value at the method's own index
is exactly the policy-effective argument. -/
theorem callMethod_registers_self (s : Maxwell3DState) (m a : Nat) (l : Bool)
    (hm : m < RegisterCount) :
    (callMethod s m a l).state.registers m = effectiveArg s m a := by
  have hnot : ¬ RegisterCount ≤ m := by omega
  unfold callMethod effectiveArg
  dsimp only
  rw [if_neg hnot]
  split_ifs <;> simp_all [alwaysOnSwitch_regs_self, upd]

/-- A register-method call leaves every register other than the method's own,
the two macro RAM pointers and the firmware result word untouched. -/
theorem callMethod_registers_other (s : Maxwell3DState) (m a : Nat) (l : Bool)
    (k : Nat) (hm : m < RegisterCount) (hk : k ≠ m)
    (h1 : k ≠ instructionRamPointerOffset) (h2 : k ≠ startAddressRamPointerOffset)
    (h3 : k ≠ firmwareResultOffset) :
    (callMethod s m a l).state.registers k = s.registers k := by
  have hnot : ¬ RegisterCount ≤ m := by omega
  have haos : ∀ r c p b, (alwaysOnSwitch r c p m b).regs k = r k := fun r c p b =>
    alwaysOnSwitch_regs_other r c p m b k h1 h2 h3
  unfold callMethod
  dsimp only
  rw [if_neg hnot]
  split_ifs <;> simp_all [upd, haos]

/-- A register-method call can write the shadow file only at the method's own
index (by the Track policy, or by the shadow-control dispatch case). -/
theorem callMethod_shadow_other (s : Maxwell3DState) (m a : Nat) (l : Bool)
    (k : Nat) (hm : m < RegisterCount) (hk : k ≠ m) :
    (callMethod s m a l).state.shadowRegisters k = s.shadowRegisters k := by
  have hnot : ¬ RegisterCount ≤ m := by omega
  unfold callMethod
  dsimp only
  rw [if_neg hnot]
  split_ifs <;> simp_all [upd]

/-- Under the Track policies, a non-control register write records the caller's
argument into the shadow file at the method's index. -/
theorem callMethod_shadow_track (s : Maxwell3DState) (m a : Nat) (l : Bool)
    (hm : m < RegisterCount) (hmc : m ≠ shadowRamControlOffset)
    (hmode : s.shadowRegisters shadowRamControlOffset = MmeShadowRamControlTrack
      ∨ s.shadowRegisters shadowRamControlOffset = MmeShadowRamControlTrackWithFilter) :
    (callMethod s m a l).state.shadowRegisters m = a := by
  have hnot : ¬ RegisterCount ≤ m := by omega
  unfold callMethod
  dsimp only
  rw [if_neg hnot]
  split_ifs <;> simp_all [upd, MmeShadowRamControlTrack,
    MmeShadowRamControlTrackWithFilter, MmeShadowRamControlReplay]

/-- Outside the Track policies, a non-control register write leaves the whole
shadow file untouched. -/
theorem callMethod_shadow_frozen (s : Maxwell3DState) (m a : Nat) (l : Bool)
    (k : Nat) (hm : m < RegisterCount) (hmc : m ≠ shadowRamControlOffset)
    (hmode : s.shadowRegisters shadowRamControlOffset ≠ MmeShadowRamControlTrack)
    (hmode2 : s.shadowRegisters shadowRamControlOffset ≠ MmeShadowRamControlTrackWithFilter) :
    (callMethod s m a l).state.shadowRegisters k = s.shadowRegisters k := by
  have hnot : ¬ RegisterCount ≤ m := by omega
  unfold callMethod
  dsimp only
  rw [if_neg hnot]
  split_ifs <;> simp_all [upd]

/-- A redundant write (the register already holds the policy-effective
argument) never executes the value-change dispatch switch. -/
theorem callMethod_redundant_no_dispatch (s : Maxwell3DState) (m a : Nat) (l : Bool)
    (hm : m < RegisterCount) (hred : s.registers m = effectiveArg s m a) :
    (callMethod s m a l).dispatchRan = false := by
  have hnot : ¬ RegisterCount ≤ m := by omega
  unfold callMethod
  unfold effectiveArg at hred
  dsimp only
  rw [if_neg hnot]
  split_ifs <;> first | rfl | (exfalso; simp_all)

/-- A non-redundant, non-control register write that is not redundant executes
the value-change switch. -/
theorem callMethod_dispatch_runs (s : Maxwell3DState) (m a : Nat) (l : Bool)
    (hm : m < RegisterCount) (hred : s.registers m ≠ effectiveArg s m a) :
    (callMethod s m a l).dispatchRan = true := by
  have hnot : ¬ RegisterCount ≤ m := by omega
  unfold callMethod
  unfold effectiveArg at hred
  dsimp only
  rw [if_neg hnot]
  split_ifs <;> first | rfl | (exfalso; simp_all)

/-- A write to the shadow-control register that is not redundant stores the
caller's argument in both files at the control index and touches nothing else. -/
theorem callMethod_ctl_not_redundant (s : Maxwell3DState) (a : Nat) (l : Bool)
    (h : s.registers shadowRamControlOffset ≠ a) :
    (callMethod s shadowRamControlOffset a l).state.registers
        = upd s.registers shadowRamControlOffset a
    ∧ (callMethod s shadowRamControlOffset a l).state.shadowRegisters
        = upd s.shadowRegisters shadowRamControlOffset a := by
  have hnot : ¬ RegisterCount ≤ shadowRamControlOffset := by decide
  have hmatch : ValueChangeMatches shadowRamControlOffset := Or.inl rfl
  unfold callMethod
  dsimp only
  rw [if_neg hnot]
  split_ifs <;> simp_all

/-- The syncpoint case of the always-on switch emits the increment effect. -/
theorem alwaysOnSwitch_syncpoint (r c p : Nat → Nat) (b : Nat) :
    (alwaysOnSwitch r c p syncpointActionOffset b).effects
      = [Effect.syncpointIncrement b] := by
  unfold alwaysOnSwitch
  dsimp only
  rw [if_neg (by decide), if_neg (by decide), if_pos rfl]

/-- The syncpoint method's always-on increment fires on every call, redundant
or not. -/
theorem callMethod_syncpoint_effects (s : Maxwell3DState) (a : Nat) (l : Bool) :
    (callMethod s syncpointActionOffset a l).effects
      = [Effect.syncpointIncrement (effectiveArg s syncpointActionOffset a)] := by
  have hnot : ¬ RegisterCount ≤ syncpointActionOffset := by decide
  have hmatch : ¬ ValueChangeMatches syncpointActionOffset := by decide
  unfold callMethod effectiveArg
  dsimp only
  rw [if_neg hnot]
  split_ifs <;> simp_all [alwaysOnSwitch_syncpoint]

/-- The policy-effective argument of a (method, argument) pair is unchanged by
a first call with the same pair: the shadow mode survives the call, and in
Replay mode the shadow file is not written at all. -/
theorem effectiveArg_stable (s : Maxwell3DState) (m a : Nat) (l : Bool)
    (hm : m < RegisterCount) :
    effectiveArg (callMethod s m a l).state m a = effectiveArg s m a := by
  by_cases hc : m = shadowRamControlOffset
  · subst hc; simp [effectiveArg]
  · have hctl : (callMethod s m a l).state.shadowRegisters shadowRamControlOffset
        = s.shadowRegisters shadowRamControlOffset :=
      callMethod_shadow_other s m a l shadowRamControlOffset hm (fun h => hc h.symm)
    by_cases hr : s.shadowRegisters shadowRamControlOffset = MmeShadowRamControlReplay
    · have hfrozen : (callMethod s m a l).state.shadowRegisters m
          = s.shadowRegisters m := by
        refine callMethod_shadow_frozen s m a l m hm hc ?_ ?_ <;>
          simp [hr, MmeShadowRamControlReplay, MmeShadowRamControlTrack,
            MmeShadowRamControlTrackWithFilter]
      simp [effectiveArg, hc, hctl, hr, hfrozen]
    · simp [effectiveArg, hc, hctl, hr]

/-- A non-redundant write to a viewport scaleX register dispatches
SetViewportX with the incoming scale and the translateX word still registered
three words later. -/
theorem callMethod_viewport_scaleX (s : Maxwell3DState) (i a : Nat) (l : Bool)
    (hi : i < 16)
    (hmode : s.shadowRegisters shadowRamControlOffset = MmeShadowRamControlPassthrough)
    (hred : s.registers (viewportTransformsOffset + 8 * i) ≠ a) :
    (callMethod s (viewportTransformsOffset + 8 * i) a l).ctxEvents
      = [CtxEvent.viewportX i a (s.registers (viewportTransformsOffset + 8 * i + 3))] := by
  have hnot : ¬ RegisterCount ≤ viewportTransformsOffset + 8 * i := by
    simp only [RegisterCount, viewportTransformsOffset]; omega
  have hnc : ¬ (viewportTransformsOffset + 8 * i ≠ shadowRamControlOffset
      ∧ s.shadowRegisters shadowRamControlOffset = MmeShadowRamControlReplay) := by
    rw [hmode]
    simp [MmeShadowRamControlPassthrough, MmeShadowRamControlReplay]
  have hnt : ¬ (viewportTransformsOffset + 8 * i ≠ shadowRamControlOffset
      ∧ (s.shadowRegisters shadowRamControlOffset = MmeShadowRamControlTrack
        ∨ s.shadowRegisters shadowRamControlOffset = MmeShadowRamControlTrackWithFilter)) := by
    rw [hmode]
    simp [MmeShadowRamControlPassthrough, MmeShadowRamControlTrack,
      MmeShadowRamControlTrackWithFilter]
  have hmatch : ValueChangeMatches (viewportTransformsOffset + 8 * i) := by
    refine Or.inr (Or.inr (Or.inl ⟨Nat.le_add_right _ _, ?_, ?_⟩)) <;>
      simp only [viewportTransformsOffset] <;> omega
  unfold callMethod
  dsimp only
  rw [if_neg hnot, if_neg hnc, if_neg hnt, if_neg hred, if_pos hmatch]
  dsimp only
  unfold valueChangeEvents
  dsimp only
  rw [if_neg (by simp only [renderTargetsOffset, viewportTransformsOffset]; omega),
    if_pos (by simp only [viewportTransformsOffset]; omega)]
  have e1 : (viewportTransformsOffset + 8 * i - viewportTransformsOffset) % 8 = 0 := by
    simp only [viewportTransformsOffset]; omega
  have e2 : (viewportTransformsOffset + 8 * i - viewportTransformsOffset) / 8 = i := by
    simp only [viewportTransformsOffset]; omega
  rw [e1, e2]
  dsimp only
  rw [upd_other _ _ _ _ (by simp only [viewportTransformsOffset]; omega)]

/-- A non-redundant write to a viewport translateX register dispatches
SetViewportX with the scaleX word still registered three words earlier and the
incoming translate. -/
theorem callMethod_viewport_translateX (s : Maxwell3DState) (i b : Nat) (l : Bool)
    (hi : i < 16)
    (hmode : s.shadowRegisters shadowRamControlOffset = MmeShadowRamControlPassthrough)
    (hred : s.registers (viewportTransformsOffset + 8 * i + 3) ≠ b) :
    (callMethod s (viewportTransformsOffset + 8 * i + 3) b l).ctxEvents
      = [CtxEvent.viewportX i (s.registers (viewportTransformsOffset + 8 * i)) b] := by
  have hnot : ¬ RegisterCount ≤ viewportTransformsOffset + 8 * i + 3 := by
    simp only [RegisterCount, viewportTransformsOffset]; omega
  have hnc : ¬ (viewportTransformsOffset + 8 * i + 3 ≠ shadowRamControlOffset
      ∧ s.shadowRegisters shadowRamControlOffset = MmeShadowRamControlReplay) := by
    rw [hmode]
    simp [MmeShadowRamControlPassthrough, MmeShadowRamControlReplay]
  have hnt : ¬ (viewportTransformsOffset + 8 * i + 3 ≠ shadowRamControlOffset
      ∧ (s.shadowRegisters shadowRamControlOffset = MmeShadowRamControlTrack
        ∨ s.shadowRegisters shadowRamControlOffset = MmeShadowRamControlTrackWithFilter)) := by
    rw [hmode]
    simp [MmeShadowRamControlPassthrough, MmeShadowRamControlTrack,
      MmeShadowRamControlTrackWithFilter]
  have hmatch : ValueChangeMatches (viewportTransformsOffset + 8 * i + 3) := by
    refine Or.inr (Or.inr (Or.inl ⟨?_, ?_, ?_⟩)) <;>
      simp only [viewportTransformsOffset] <;> omega
  unfold callMethod
  dsimp only
  rw [if_neg hnot, if_neg hnc, if_neg hnt, if_neg hred, if_pos hmatch]
  dsimp only
  unfold valueChangeEvents
  dsimp only
  rw [if_neg (by simp only [renderTargetsOffset, viewportTransformsOffset]; omega),
    if_pos (by simp only [viewportTransformsOffset]; omega)]
  have e1 : (viewportTransformsOffset + 8 * i + 3 - viewportTransformsOffset) % 8 = 3 := by
    simp only [viewportTransformsOffset]; omega
  have e2 : (viewportTransformsOffset + 8 * i + 3 - viewportTransformsOffset) / 8 = i := by
    simp only [viewportTransformsOffset]; omega
  rw [e1, e2]
  dsimp only
  rw [upd_other _ _ _ _ (by simp only [viewportTransformsOffset]; omega)]

/-! ## Claim theorems -/

/-- C1 (counterexample): the claim as stated is false — `SetRenderTargetWidth`
is a size setter, yet on a slot with a resolved mapping it leaves the guest
mappings intact instead of clearing them. -/
theorem renderTarget_width_keeps_mappings :
    ¬ ((setRenderTargetWidth sampleRenderTarget 7).guest.mappings = []) := by
  decide

/-- C1 (amended): the address-high/low, width, height, format (for a supported
value) and tile-mode setters all invalidate the cached view; the addressing
setters additionally clear the resolved guest mappings (the size setters leave
them untouched), so after an address change the next GetRenderTarget
re-resolves the mappings through the translator and rebuilds the view. -/
theorem renderTarget_setter_invalidation (rt : RenderTarget) (v : Nat)
    (isLin : Bool) (hl dl : Nat) (translate : Nat → Nat → List Span)
    (fc : GuestTexture → TextureView) (f : FormatBase) :
    (setRenderTargetAddressHigh rt v).view = none
    ∧ (setRenderTargetAddressHigh rt v).guest.mappings = []
    ∧ (setRenderTargetAddressLow rt v).view = none
    ∧ (setRenderTargetAddressLow rt v).guest.mappings = []
    ∧ (setRenderTargetWidth rt v).view = none
    ∧ (setRenderTargetHeight rt v).view = none
    ∧ (setRenderTargetWidth rt v).guest.mappings = rt.guest.mappings
    ∧ (setRenderTargetHeight rt v).guest.mappings = rt.guest.mappings
    ∧ (setRenderTargetFormat rt ColorFormatNone).1.view = none
    ∧ (setRenderTargetFormat rt ColorFormatR8G8B8A8Unorm).1.view = none
    ∧ (setRenderTargetTileMode rt isLin hl dl).view = none
    ∧ (setRenderTargetTileMode rt isLin hl dl).guest.mappings = rt.guest.mappings
    ∧ (rt.disabled = false → rt.guest.format = some f →
        (getRenderTarget translate fc (setRenderTargetAddressHigh rt v)).map
            (fun p => p.2.guest.mappings)
          = some (translate ((setRenderTargetAddressHigh rt v).gpuAddress)
              (rtSizeBytes (setRenderTargetAddressHigh rt v).guest f))
        ∧ (getRenderTarget translate fc (setRenderTargetAddressHigh rt v)).map
            (fun p => (p.1).isSome) = some true) := by
  refine ⟨rfl, rfl, rfl, rfl, rfl, rfl, rfl, rfl, rfl,
    by norm_num [setRenderTargetFormat, ColorFormatNone, ColorFormatR8G8B8A8Unorm],
    rfl, rfl, ?_⟩
  intro h1 h2
  simp [getRenderTarget, setRenderTargetAddressHigh, h1, h2]

/-- C1 (witness): the amended theorem exercised on the concrete resolved slot. -/
theorem renderTarget_setter_invalidation_witness :
    (sampleRenderTarget.disabled = false
      ∧ sampleRenderTarget.guest.format = some RGBA8888Unorm) ∧
    ((setRenderTargetAddressHigh sampleRenderTarget 2).view = none
    ∧ (setRenderTargetAddressHigh sampleRenderTarget 2).guest.mappings = []
    ∧ (setRenderTargetAddressLow sampleRenderTarget 2).view = none
    ∧ (setRenderTargetAddressLow sampleRenderTarget 2).guest.mappings = []
    ∧ (setRenderTargetWidth sampleRenderTarget 2).view = none
    ∧ (setRenderTargetHeight sampleRenderTarget 2).view = none
    ∧ (setRenderTargetWidth sampleRenderTarget 2).guest.mappings
        = sampleRenderTarget.guest.mappings
    ∧ (setRenderTargetHeight sampleRenderTarget 2).guest.mappings
        = sampleRenderTarget.guest.mappings
    ∧ (setRenderTargetFormat sampleRenderTarget ColorFormatNone).1.view = none
    ∧ (setRenderTargetFormat sampleRenderTarget ColorFormatR8G8B8A8Unorm).1.view = none
    ∧ (setRenderTargetTileMode sampleRenderTarget true 1 1).view = none
    ∧ (setRenderTargetTileMode sampleRenderTarget true 1 1).guest.mappings
        = sampleRenderTarget.guest.mappings
    ∧ (sampleRenderTarget.disabled = false →
        sampleRenderTarget.guest.format = some RGBA8888Unorm →
        (getRenderTarget sampleTranslate sampleFindOrCreate
            (setRenderTargetAddressHigh sampleRenderTarget 2)).map
            (fun p => p.2.guest.mappings)
          = some (sampleTranslate ((setRenderTargetAddressHigh sampleRenderTarget 2).gpuAddress)
              (rtSizeBytes (setRenderTargetAddressHigh sampleRenderTarget 2).guest RGBA8888Unorm))
        ∧ (getRenderTarget sampleTranslate sampleFindOrCreate
            (setRenderTargetAddressHigh sampleRenderTarget 2)).map
            (fun p => (p.1).isSome) = some true)) :=
  ⟨⟨rfl, rfl⟩, renderTarget_setter_invalidation sampleRenderTarget 2 true 1 1
    sampleTranslate sampleFindOrCreate RGBA8888Unorm⟩

/-- C2 (code bug): evaluating `SetScissor` at the failing input — a stored
scissor with horizontal maximum 10 and vertical maximum 20 — shows the enable
path writes the horizontal maximum into the host extent height, not the
vertical bound the mapping requires. -/
theorem scissor_enable_height_from_horizontal :
    (setScissor DefaultScissor (some failingScissor)).extentHeight = 10
    ∧ failingScissor.vertical.maximum = 20
    ∧ ¬ ((setScissor DefaultScissor (some failingScissor)).extentHeight
          = failingScissor.vertical.maximum)
    ∧ (setScissorHorizontal DefaultScissor failingScissor.horizontal).extentHeight
        = DefaultScissor.extentHeight
    ∧ (setScissorVertical DefaultScissor failingScissor.vertical).extentWidth
        = DefaultScissor.extentWidth
    ∧ setScissor DefaultScissor none = DefaultScissor := by
  refine ⟨rfl, rfl, by decide, rfl, rfl, rfl⟩

/-- C3: starting in Track mode, writing A to method M records A in both files;
switching the shadow mode to Replay through its own register and then writing
B to M leaves the register file holding A, not B. -/
theorem shadow_record_replay (s : Maxwell3DState) (m A B : Nat) (l1 l2 l3 : Bool)
    (hm : m < RegisterCount) (hmc : m ≠ shadowRamControlOffset)
    (hTrack : s.shadowRegisters shadowRamControlOffset = MmeShadowRamControlTrack)
    (hCtl : s.registers shadowRamControlOffset ≠ MmeShadowRamControlReplay)
    (hAB : A ≠ B) :
    (callMethod s m A l1).state.registers m = A
    ∧ (callMethod s m A l1).state.shadowRegisters m = A
    ∧ (callMethod (callMethod (callMethod s m A l1).state
          shadowRamControlOffset MmeShadowRamControlReplay l2).state m B l3).state.registers m
        = A
    ∧ (callMethod (callMethod (callMethod s m A l1).state
          shadowRamControlOffset MmeShadowRamControlReplay l2).state m B l3).state.registers m
        ≠ B := by
  have hcm : shadowRamControlOffset ≠ m := fun h => hmc h.symm
  have f1 : (callMethod s m A l1).state.registers m = A := by
    rw [callMethod_registers_self s m A l1 hm]
    simp [effectiveArg, hTrack, MmeShadowRamControlTrack, MmeShadowRamControlReplay]
  have f2 : (callMethod s m A l1).state.shadowRegisters m = A :=
    callMethod_shadow_track s m A l1 hm hmc (Or.inl hTrack)
  have f3 : (callMethod s m A l1).state.registers shadowRamControlOffset
      = s.registers shadowRamControlOffset :=
    callMethod_registers_other s m A l1 shadowRamControlOffset hm hcm
      (by decide) (by decide) (by decide)
  set s1 := (callMethod s m A l1).state with hs1
  have hne : s1.registers shadowRamControlOffset ≠ MmeShadowRamControlReplay := by
    rw [f3]; exact hCtl
  obtain ⟨g1, g2⟩ := callMethod_ctl_not_redundant s1 MmeShadowRamControlReplay l2 hne
  set s2 := (callMethod s1 shadowRamControlOffset MmeShadowRamControlReplay l2).state with hs2
  have f5 : s2.shadowRegisters m = A := by rw [g2, upd_other _ _ _ _ hmc, f2]
  have f6 : s2.shadowRegisters shadowRamControlOffset = MmeShadowRamControlReplay := by
    rw [g2, upd_same]
  have f7 : (callMethod s2 m B l3).state.registers m = A := by
    rw [callMethod_registers_self s2 m B l3 hm]
    simp [effectiveArg, hmc, f6, f5]
  exact ⟨f1, f2, f7, by rw [f7]; exact hAB⟩

/-- C3 (witness): the record/replay scenario at method 0x50 with A = 11,
B = 22 on the zeroed (Track-mode) state. -/
theorem shadow_record_replay_witness :
    (0x50 < RegisterCount ∧ (0x50 : Nat) ≠ shadowRamControlOffset
      ∧ initMaxwellState.shadowRegisters shadowRamControlOffset = MmeShadowRamControlTrack
      ∧ initMaxwellState.registers shadowRamControlOffset ≠ MmeShadowRamControlReplay
      ∧ (11 : Nat) ≠ 22) ∧
    ((callMethod initMaxwellState 0x50 11 false).state.registers 0x50 = 11
    ∧ (callMethod initMaxwellState 0x50 11 false).state.shadowRegisters 0x50 = 11
    ∧ (callMethod (callMethod (callMethod initMaxwellState 0x50 11 false).state
          shadowRamControlOffset MmeShadowRamControlReplay false).state 0x50 22
          false).state.registers 0x50 = 11
    ∧ (callMethod (callMethod (callMethod initMaxwellState 0x50 11 false).state
          shadowRamControlOffset MmeShadowRamControlReplay false).state 0x50 22
          false).state.registers 0x50 ≠ 22) :=
  ⟨⟨by decide, by decide, rfl, by decide, by decide⟩,
    shadow_record_replay initMaxwellState 0x50 11 22 false false false
      (by decide) (by decide) rfl (by decide) (by decide)⟩

/-- C4: issuing the identical (method, argument) pair twice stores the
policy-effective argument both times (literally the caller's argument outside
Replay mode), never executes the value-change dispatch switch on the second
call, and for the syncpoint method the always-on increment fires on both
calls. -/
theorem redundant_write_suppression (s : Maxwell3DState) (m a : Nat)
    (l1 l2 : Bool) (hm : m < RegisterCount) :
    (callMethod s m a l1).state.registers m = effectiveArg s m a
    ∧ (callMethod (callMethod s m a l1).state m a l2).state.registers m
        = effectiveArg s m a
    ∧ (callMethod (callMethod s m a l1).state m a l2).dispatchRan = false
    ∧ (s.shadowRegisters shadowRamControlOffset ≠ MmeShadowRamControlReplay →
        (callMethod s m a l1).state.registers m = a)
    ∧ (m = syncpointActionOffset →
        (callMethod s m a l1).effects = [Effect.syncpointIncrement (effectiveArg s m a)]
        ∧ (callMethod (callMethod s m a l1).state m a l2).effects
            = [Effect.syncpointIncrement (effectiveArg s m a)]) := by
  have f1 : (callMethod s m a l1).state.registers m = effectiveArg s m a :=
    callMethod_registers_self s m a l1 hm
  have hstab : effectiveArg (callMethod s m a l1).state m a = effectiveArg s m a :=
    effectiveArg_stable s m a l1 hm
  have f2 : (callMethod (callMethod s m a l1).state m a l2).state.registers m
      = effectiveArg s m a := by
    rw [callMethod_registers_self _ m a l2 hm, hstab]
  have f3 : (callMethod (callMethod s m a l1).state m a l2).dispatchRan = false := by
    apply callMethod_redundant_no_dispatch _ m a l2 hm
    rw [hstab, f1]
  refine ⟨f1, f2, f3, ?_, ?_⟩
  · intro h; rw [f1]; simp [effectiveArg, h]
  · intro h
    subst h
    exact ⟨callMethod_syncpoint_effects s a l1,
      by rw [callMethod_syncpoint_effects _ a l2, hstab]⟩

/-- C4 (witness): two identical syncpoint writes on the zeroed state. -/
theorem redundant_write_suppression_witness :
    (syncpointActionOffset < RegisterCount) ∧
    ((callMethod initMaxwellState syncpointActionOffset 5 false).state.registers
        syncpointActionOffset = effectiveArg initMaxwellState syncpointActionOffset 5
    ∧ (callMethod (callMethod initMaxwellState syncpointActionOffset 5 false).state
          syncpointActionOffset 5 false).state.registers syncpointActionOffset
        = effectiveArg initMaxwellState syncpointActionOffset 5
    ∧ (callMethod (callMethod initMaxwellState syncpointActionOffset 5 false).state
          syncpointActionOffset 5 false).dispatchRan = false
    ∧ (initMaxwellState.shadowRegisters shadowRamControlOffset ≠ MmeShadowRamControlReplay →
        (callMethod initMaxwellState syncpointActionOffset 5 false).state.registers
          syncpointActionOffset = 5)
    ∧ (syncpointActionOffset = syncpointActionOffset →
        (callMethod initMaxwellState syncpointActionOffset 5 false).effects
          = [Effect.syncpointIncrement (effectiveArg initMaxwellState syncpointActionOffset 5)]
        ∧ (callMethod (callMethod initMaxwellState syncpointActionOffset 5 false).state
              syncpointActionOffset 5 false).effects
            = [Effect.syncpointIncrement
                (effectiveArg initMaxwellState syncpointActionOffset 5)])) :=
  ⟨by decide,
    redundant_write_suppression initMaxwellState syncpointActionOffset 5 false false
      (by decide)⟩

/-- C5: three consecutive macro-space calls with lastInPacket only on the
third invoke the interpreter exactly once, at the start offset of program
index ((method − RegisterCount) >> 1) mod the table size, with the three
arguments in order, and clear the accumulator afterwards; an odd method
leaves the selected index unchanged. -/
theorem macro_batching (s : Maxwell3DState) (m modd a1 a2 a3 : Nat)
    (hm : RegisterCount ≤ m) (heven : m % 2 = 0)
    (hmodd : RegisterCount ≤ modd) (hodd : modd % 2 = 1)
    (hargs : s.macroArguments = []) :
    (callMethod s m a1 false).macroRuns = []
    ∧ (callMethod (callMethod s m a1 false).state m a2 false).macroRuns = []
    ∧ (callMethod (callMethod (callMethod s m a1 false).state m a2 false).state
          m a3 true).macroRuns
        = [(s.macroPositions (((m - RegisterCount) / 2) % MacroPositionCount),
            [a1, a2, a3])]
    ∧ (callMethod (callMethod (callMethod s m a1 false).state m a2 false).state
          m a3 true).state.macroIndex = 0
    ∧ (callMethod (callMethod (callMethod s m a1 false).state m a2 false).state
          m a3 true).state.macroArguments = []
    ∧ (callMethod s modd a1 false).state.macroIndex = s.macroIndex := by
  simp [callMethod, hm, heven, hargs, hmodd, hodd]

/-- C5 (witness): three calls at method RegisterCount (and one odd call) on the
zeroed state. -/
theorem macro_batching_witness :
    (RegisterCount ≤ RegisterCount ∧ RegisterCount % 2 = 0
      ∧ RegisterCount ≤ RegisterCount + 1 ∧ (RegisterCount + 1) % 2 = 1
      ∧ initMaxwellState.macroArguments = []) ∧
    ((callMethod initMaxwellState RegisterCount 1 false).macroRuns = []
    ∧ (callMethod (callMethod initMaxwellState RegisterCount 1 false).state
          RegisterCount 2 false).macroRuns = []
    ∧ (callMethod (callMethod (callMethod initMaxwellState RegisterCount 1 false).state
          RegisterCount 2 false).state RegisterCount 3 true).macroRuns
        = [(initMaxwellState.macroPositions
              (((RegisterCount - RegisterCount) / 2) % MacroPositionCount), [1, 2, 3])]
    ∧ (callMethod (callMethod (callMethod initMaxwellState RegisterCount 1 false).state
          RegisterCount 2 false).state RegisterCount 3 true).state.macroIndex = 0
    ∧ (callMethod (callMethod (callMethod initMaxwellState RegisterCount 1 false).state
          RegisterCount 2 false).state RegisterCount 3 true).state.macroArguments = []
    ∧ (callMethod initMaxwellState (RegisterCount + 1) 1 false).state.macroIndex
        = initMaxwellState.macroIndex) :=
  ⟨⟨by decide, by decide, by decide, by decide, rfl⟩,
    macro_batching initMaxwellState RegisterCount (RegisterCount + 1) 1 2 3
      (by decide) (by decide) (by decide) (by decide) rfl⟩

/-- C6: the viewport setters compute origin = scale − translate and
extent = scale × 2 on their own axis while leaving the other axis untouched,
the depth setter computes minDepth = translate and maxDepth = scale +
translate; the concrete instance X(2,1) then Y(3,0) yields
{x = 1, width = 4, y = 3, height = 6}; and at the register level a scaleX
(resp. translateX) write re-dispatches with the still-registered translateX
(resp. scaleX) word of the same slot. -/
theorem viewport_transform_formulas (vp : Viewport) (sc tr : ℚ)
    (s : Maxwell3DState) (i a b : Nat) (l : Bool) (hi : i < 16)
    (hmode : s.shadowRegisters shadowRamControlOffset = MmeShadowRamControlPassthrough)
    (hredX : s.registers (viewportTransformsOffset + 8 * i) ≠ a)
    (hredT : s.registers (viewportTransformsOffset + 8 * i + 3) ≠ b) :
    (setViewportX vp sc tr).x = sc - tr
    ∧ (setViewportX vp sc tr).width = sc * 2
    ∧ (setViewportX vp sc tr).y = vp.y
    ∧ (setViewportX vp sc tr).height = vp.height
    ∧ (setViewportY vp sc tr).y = sc - tr
    ∧ (setViewportY vp sc tr).height = sc * 2
    ∧ (setViewportY vp sc tr).x = vp.x
    ∧ (setViewportY vp sc tr).width = vp.width
    ∧ (setViewportZ vp sc tr).minDepth = tr
    ∧ (setViewportZ vp sc tr).maxDepth = sc + tr
    ∧ (setViewportY (setViewportX vp 2 1) 3 0).x = 1
    ∧ (setViewportY (setViewportX vp 2 1) 3 0).width = 4
    ∧ (setViewportY (setViewportX vp 2 1) 3 0).y = 3
    ∧ (setViewportY (setViewportX vp 2 1) 3 0).height = 6
    ∧ (callMethod s (viewportTransformsOffset + 8 * i) a l).ctxEvents
        = [CtxEvent.viewportX i a (s.registers (viewportTransformsOffset + 8 * i + 3))]
    ∧ (callMethod s (viewportTransformsOffset + 8 * i + 3) b l).ctxEvents
        = [CtxEvent.viewportX i (s.registers (viewportTransformsOffset + 8 * i)) b] := by
  refine ⟨rfl, rfl, rfl, rfl, rfl, rfl, rfl, rfl, rfl, rfl, ?_, ?_, ?_, ?_,
    callMethod_viewport_scaleX s i a l hi hmode hredX,
    callMethod_viewport_translateX s i b l hi hmode hredT⟩ <;>
    norm_num [setViewportX, setViewportY]

/-- C6 (witness): the formulas exercised at scale 5, translate 2, on viewport
slot 2 of the Passthrough-mode state. -/
theorem viewport_transform_formulas_witness :
    ((2 : Nat) < 16
      ∧ passthroughMaxwellState.shadowRegisters shadowRamControlOffset
          = MmeShadowRamControlPassthrough
      ∧ passthroughMaxwellState.registers (viewportTransformsOffset + 8 * 2) ≠ 7
      ∧ passthroughMaxwellState.registers (viewportTransformsOffset + 8 * 2 + 3) ≠ 9) ∧
    ((setViewportX ⟨0, 0, 0, 0, 0, 1⟩ 5 2).x = 5 - 2
    ∧ (setViewportX ⟨0, 0, 0, 0, 0, 1⟩ 5 2).width = 5 * 2
    ∧ (setViewportX ⟨0, 0, 0, 0, 0, 1⟩ 5 2).y = (⟨0, 0, 0, 0, 0, 1⟩ : Viewport).y
    ∧ (setViewportX ⟨0, 0, 0, 0, 0, 1⟩ 5 2).height = (⟨0, 0, 0, 0, 0, 1⟩ : Viewport).height
    ∧ (setViewportY ⟨0, 0, 0, 0, 0, 1⟩ 5 2).y = 5 - 2
    ∧ (setViewportY ⟨0, 0, 0, 0, 0, 1⟩ 5 2).height = 5 * 2
    ∧ (setViewportY ⟨0, 0, 0, 0, 0, 1⟩ 5 2).x = (⟨0, 0, 0, 0, 0, 1⟩ : Viewport).x
    ∧ (setViewportY ⟨0, 0, 0, 0, 0, 1⟩ 5 2).width = (⟨0, 0, 0, 0, 0, 1⟩ : Viewport).width
    ∧ (setViewportZ ⟨0, 0, 0, 0, 0, 1⟩ 5 2).minDepth = 2
    ∧ (setViewportZ ⟨0, 0, 0, 0, 0, 1⟩ 5 2).maxDepth = 5 + 2
    ∧ (setViewportY (setViewportX ⟨0, 0, 0, 0, 0, 1⟩ 2 1) 3 0).x = 1
    ∧ (setViewportY (setViewportX ⟨0, 0, 0, 0, 0, 1⟩ 2 1) 3 0).width = 4
    ∧ (setViewportY (setViewportX ⟨0, 0, 0, 0, 0, 1⟩ 2 1) 3 0).y = 3
    ∧ (setViewportY (setViewportX ⟨0, 0, 0, 0, 0, 1⟩ 2 1) 3 0).height = 6
    ∧ (callMethod passthroughMaxwellState (viewportTransformsOffset + 8 * 2) 7 false).ctxEvents
        = [CtxEvent.viewportX 2 7
            (passthroughMaxwellState.registers (viewportTransformsOffset + 8 * 2 + 3))]
    ∧ (callMethod passthroughMaxwellState (viewportTransformsOffset + 8 * 2 + 3) 9
          false).ctxEvents
        = [CtxEvent.viewportX 2
            (passthroughMaxwellState.registers (viewportTransformsOffset + 8 * 2)) 9]) :=
  ⟨⟨by decide, by decide, by decide, by decide⟩,
    viewport_transform_formulas ⟨0, 0, 0, 0, 0, 1⟩ 5 2 passthroughMaxwellState 2 7 9 false
      (by decide) (by decide) (by decide) (by decide)⟩

/-- C7: GetRenderTarget returns nothing for a disabled slot and the cached
view when present; otherwise, on unresolved mappings, it computes the byte
length max(layerStride × (layerCount − baseLayer), formatSize(dimensions)),
stores the translator's covering ranges as the slot's mappings, obtains a view
from the cache over the updated descriptor, caches it and returns it; with
mappings already resolved it only obtains and caches the view. -/
theorem getRenderTarget_resolution (translate : Nat → Nat → List Span)
    (fc : GuestTexture → TextureView) (rt : RenderTarget) (f : FormatBase)
    (v : TextureView) :
    (rt.disabled = true → getRenderTarget translate fc rt = some (none, rt))
    ∧ (rt.disabled = false → rt.view = some v →
        getRenderTarget translate fc rt = some (some v, rt))
    ∧ (rt.disabled = false → rt.view = none → rt.guest.mappings = [] →
        rt.guest.format = some f →
        (getRenderTarget translate fc rt).map (fun p => p.2.guest.mappings)
          = some (translate (rt.gpuAddressHigh * U32_MOD + rt.gpuAddressLow)
              (Nat.max ((rt.guest.layerStride
                    * u32OfInt ((rt.guest.layerCount : Int) - (rt.guest.baseArrayLayer : Int)))
                  % U32_MOD)
                (f.getSize rt.guest.dimensions)))
        ∧ (getRenderTarget translate fc rt).map (fun p => p.1)
          = some (some (fc { rt.guest with
              mappings := translate rt.gpuAddress (rtSizeBytes rt.guest f) }))
        ∧ (getRenderTarget translate fc rt).map (fun p => p.2.view)
          = some (some (fc { rt.guest with
              mappings := translate rt.gpuAddress (rtSizeBytes rt.guest f) })))
    ∧ (rt.disabled = false → rt.view = none → rt.guest.mappings ≠ [] →
        getRenderTarget translate fc rt
          = some (some (fc rt.guest), { rt with view := some (fc rt.guest) })) := by
  refine ⟨?_, ?_, ?_, ?_⟩
  · intro h; simp [getRenderTarget, h]
  · intro h1 h2; simp [getRenderTarget, h1, h2]
  · intro h1 h2 h3 h4
    refine ⟨?_, ?_, ?_⟩ <;>
      simp [getRenderTarget, h1, h2, h3, h4, rtSizeBytes, RenderTarget.gpuAddress]
  · intro h1 h2 h3
    simp [getRenderTarget, h1, h2, h3]

/-- C7 (witness): resolution exercised on the concrete unresolved slot with
the sample translator and cache. -/
theorem getRenderTarget_resolution_witness :
    (sampleRenderTargetUnresolved.disabled = false
      ∧ sampleRenderTargetUnresolved.view = (none : Option TextureView)
      ∧ sampleRenderTargetUnresolved.guest.mappings = []
      ∧ sampleRenderTargetUnresolved.guest.format = some RGBA8888Unorm) ∧
    ((sampleRenderTargetUnresolved.disabled = true →
        getRenderTarget sampleTranslate sampleFindOrCreate sampleRenderTargetUnresolved
          = some (none, sampleRenderTargetUnresolved))
    ∧ (sampleRenderTargetUnresolved.disabled = false →
        sampleRenderTargetUnresolved.view = some ⟨7⟩ →
        getRenderTarget sampleTranslate sampleFindOrCreate sampleRenderTargetUnresolved
          = some (some ⟨7⟩, sampleRenderTargetUnresolved))
    ∧ (sampleRenderTargetUnresolved.disabled = false →
        sampleRenderTargetUnresolved.view = none →
        sampleRenderTargetUnresolved.guest.mappings = [] →
        sampleRenderTargetUnresolved.guest.format = some RGBA8888Unorm →
        (getRenderTarget sampleTranslate sampleFindOrCreate
            sampleRenderTargetUnresolved).map (fun p => p.2.guest.mappings)
          = some (sampleTranslate
              (sampleRenderTargetUnresolved.gpuAddressHigh * U32_MOD
                + sampleRenderTargetUnresolved.gpuAddressLow)
              (Nat.max ((sampleRenderTargetUnresolved.guest.layerStride
                    * u32OfInt ((sampleRenderTargetUnresolved.guest.layerCount : Int)
                        - (sampleRenderTargetUnresolved.guest.baseArrayLayer : Int)))
                  % U32_MOD)
                (RGBA8888Unorm.getSize sampleRenderTargetUnresolved.guest.dimensions)))
        ∧ (getRenderTarget sampleTranslate sampleFindOrCreate
            sampleRenderTargetUnresolved).map (fun p => p.1)
          = some (some (sampleFindOrCreate { sampleRenderTargetUnresolved.guest with
              mappings := sampleTranslate sampleRenderTargetUnresolved.gpuAddress
                (rtSizeBytes sampleRenderTargetUnresolved.guest RGBA8888Unorm) }))
        ∧ (getRenderTarget sampleTranslate sampleFindOrCreate
            sampleRenderTargetUnresolved).map (fun p => p.2.view)
          = some (some (sampleFindOrCreate { sampleRenderTargetUnresolved.guest with
              mappings := sampleTranslate sampleRenderTargetUnresolved.gpuAddress
                (rtSizeBytes sampleRenderTargetUnresolved.guest RGBA8888Unorm) })))
    ∧ (sampleRenderTargetUnresolved.disabled = false →
        sampleRenderTargetUnresolved.view = none →
        sampleRenderTargetUnresolved.guest.mappings ≠ [] →
        getRenderTarget sampleTranslate sampleFindOrCreate sampleRenderTargetUnresolved
          = some (some (sampleFindOrCreate sampleRenderTargetUnresolved.guest),
              { sampleRenderTargetUnresolved with
                  view := some (sampleFindOrCreate sampleRenderTargetUnresolved.guest) }))) :=
  ⟨⟨rfl, rfl, rfl, rfl⟩,
    getRenderTarget_resolution sampleTranslate sampleFindOrCreate
      sampleRenderTargetUnresolved RGBA8888Unorm ⟨7⟩⟩

/-- C8: for every u64 nanosecond reading, the split-form tick conversion
(ns / 625) × 384 + ((ns mod 625) × 384) / 625 computed in wrapping u64
arithmetic equals floor(ns × 384 / 625) exactly — the 384/625 scale is below
one, so no intermediate term can overflow anywhere in the u64 domain. -/
theorem semaphore_timestamp_conversion (ns : Nat) (h : ns < U64_MOD) :
    semaphoreTimestamp ns = ns * 384 / 625 := by
  unfold semaphoreTimestamp U64_MOD
  unfold U64_MOD at h
  have key : ns / 625 * 384 + ns % 625 * 384 / 625 = ns * 384 / 625 := by
    conv_rhs => rw [← Nat.div_add_mod ns 625]
    rw [Nat.add_mul]
    have e1 : 625 * (ns / 625) * 384 = ns / 625 * 384 * 625 := by ring
    rw [e1, Nat.add_comm (ns / 625 * 384 * 625),
      Nat.add_mul_div_right _ _ (by norm_num : (0 : ℕ) < 625), Nat.add_comm]
  have hrm : ns % 625 * 384 < 2 ^ 64 := by
    have h1 : ns % 625 < 625 := Nat.mod_lt _ (by norm_num)
    have h2 : ns % 625 * 384 < 625 * 384 :=
      Nat.mul_lt_mul_of_lt_of_le h1 (le_refl 384) (by norm_num)
    omega
  have htot : ns * 384 / 625 ≤ ns := by
    have h1 : ns * 384 ≤ ns * 625 := Nat.mul_le_mul_left ns (by norm_num)
    calc ns * 384 / 625 ≤ ns * 625 / 625 := Nat.div_le_div_right h1
      _ = ns := Nat.mul_div_cancel ns (by norm_num)
  have hX : ns / 625 * 384 ≤ ns * 384 / 625 := by
    rw [← key]; exact Nat.le_add_right _ _
  have hXlt : ns / 625 * 384 < 2 ^ 64 := lt_of_le_of_lt (le_trans hX htot) h
  rw [Nat.mod_eq_of_lt hXlt, Nat.mod_eq_of_lt hrm, key,
    Nat.mod_eq_of_lt (lt_of_le_of_lt htot h)]

/-- C8 (witness): one million nanoseconds convert to 614400 ticks. -/
theorem semaphore_timestamp_conversion_witness :
    1000000 < U64_MOD ∧ semaphoreTimestamp 1000000 = 1000000 * 384 / 625 :=
  ⟨by norm_num [U64_MOD], semaphore_timestamp_conversion 1000000 (by norm_num [U64_MOD])⟩

/-- C9: writes addressed to the shadow-control register bypass the shadow
policy — in Replay mode the caller's argument still lands in the register file
(the mode change takes effect), and a redundant control write in Track mode
records nothing into the shadow file — while every other register method gets
the mode's policy (Replay substitutes the shadow value, Track records the
argument). -/
theorem shadow_ram_control_bypass (s : Maxwell3DState) (m a b : Nat) (l : Bool)
    (hm : m < RegisterCount) (hmc : m ≠ shadowRamControlOffset) :
    (s.shadowRegisters shadowRamControlOffset = MmeShadowRamControlReplay →
      (callMethod s shadowRamControlOffset a l).state.registers shadowRamControlOffset = a)
    ∧ (s.shadowRegisters shadowRamControlOffset = MmeShadowRamControlTrack →
        s.registers shadowRamControlOffset = a →
        (callMethod s shadowRamControlOffset a l).state.shadowRegisters shadowRamControlOffset
          = s.shadowRegisters shadowRamControlOffset)
    ∧ (s.shadowRegisters shadowRamControlOffset = MmeShadowRamControlReplay →
        (callMethod s m b l).state.registers m = s.shadowRegisters m)
    ∧ (s.shadowRegisters shadowRamControlOffset = MmeShadowRamControlTrack →
        (callMethod s m b l).state.shadowRegisters m = b) := by
  refine ⟨?_, ?_, ?_, ?_⟩
  · intro _
    rw [callMethod_registers_self s shadowRamControlOffset a l (by decide)]
    simp [effectiveArg]
  · intro hmode hred
    have hnot : ¬ RegisterCount ≤ shadowRamControlOffset := by decide
    unfold callMethod
    dsimp only
    rw [if_neg hnot]
    split_ifs <;> simp_all
  · intro hmode
    rw [callMethod_registers_self s m b l hm]
    simp [effectiveArg, hmc, hmode]
  · intro hmode
    exact callMethod_shadow_track s m b l hm hmc (Or.inl hmode)

/-- C9 (witness): on the Replay-mode state, a Passthrough write to the control
register takes effect with the caller's value while method 0x50 still replays
its recorded shadow value. -/
theorem shadow_ram_control_bypass_witness :
    (0x50 < RegisterCount ∧ (0x50 : Nat) ≠ shadowRamControlOffset
      ∧ replayMaxwellState.shadowRegisters shadowRamControlOffset
          = MmeShadowRamControlReplay
      ∧ replayMaxwellState.shadowRegisters 0x50 = 42) ∧
    ((replayMaxwellState.shadowRegisters shadowRamControlOffset = MmeShadowRamControlReplay →
      (callMethod replayMaxwellState shadowRamControlOffset MmeShadowRamControlPassthrough
          false).state.registers shadowRamControlOffset = MmeShadowRamControlPassthrough)
    ∧ (replayMaxwellState.shadowRegisters shadowRamControlOffset = MmeShadowRamControlTrack →
        replayMaxwellState.registers shadowRamControlOffset = MmeShadowRamControlPassthrough →
        (callMethod replayMaxwellState shadowRamControlOffset MmeShadowRamControlPassthrough
            false).state.shadowRegisters shadowRamControlOffset
          = replayMaxwellState.shadowRegisters shadowRamControlOffset)
    ∧ (replayMaxwellState.shadowRegisters shadowRamControlOffset = MmeShadowRamControlReplay →
        (callMethod replayMaxwellState 0x50 9 false).state.registers 0x50
          = replayMaxwellState.shadowRegisters 0x50)
    ∧ (replayMaxwellState.shadowRegisters shadowRamControlOffset = MmeShadowRamControlTrack →
        (callMethod replayMaxwellState 0x50 9 false).state.shadowRegisters 0x50 = 9)) :=
  ⟨⟨by decide, by decide, by decide, by decide⟩,
    shadow_ram_control_bypass replayMaxwellState 0x50 MmeShadowRamControlPassthrough 9 false
      (by decide) (by decide)⟩

/-- C10 (counterexample): the claim as stated is false — at base layer 65536
the u16 slot field does not hold "the new value": it holds the truncated
value 0, so the field equality the claim asserts fails. -/
theorem baseLayer_truncated_on_error :
    ¬ ((setRenderTargetBaseLayer sampleRenderTarget 65536).1.guest.baseArrayLayer
        = 65536) := by
  decide

/-- C10 (amended): SetRenderTargetBaseLayer fails exactly when the supplied
base layer exceeds 65535, and the error is not atomic — the u16 base-layer
field has already been overwritten with the value truncated to 16 bits before
the throw, and the cached view survives the error path, being reset only on
success. -/
theorem baseLayer_error_nonatomic (rt : RenderTarget) (v : Nat) :
    ((setRenderTargetBaseLayer rt v).2.isSome ↔ 65535 < v)
    ∧ (setRenderTargetBaseLayer rt v).1.guest.baseArrayLayer = v % U16_MOD
    ∧ (65535 < v → (setRenderTargetBaseLayer rt v).1.view = rt.view)
    ∧ (v ≤ 65535 → (setRenderTargetBaseLayer rt v).1.view = none) := by
  unfold setRenderTargetBaseLayer
  dsimp only
  split_ifs with h <;> simp_all [Nat.not_lt]

/-- C10 (witness): the amended behaviour at base layer 70000 on the concrete
slot — the error fires, the field truncates to 4464, the view survives. -/
theorem baseLayer_error_nonatomic_witness :
    (65535 < 70000) ∧
    (((setRenderTargetBaseLayer sampleRenderTarget 70000).2.isSome ↔ 65535 < 70000)
    ∧ (setRenderTargetBaseLayer sampleRenderTarget 70000).1.guest.baseArrayLayer
        = 70000 % U16_MOD
    ∧ (65535 < 70000 →
        (setRenderTargetBaseLayer sampleRenderTarget 70000).1.view = sampleRenderTarget.view)
    ∧ (70000 ≤ 65535 →
        (setRenderTargetBaseLayer sampleRenderTarget 70000).1.view = none)) :=
  ⟨by norm_num, baseLayer_error_nonatomic sampleRenderTarget 70000⟩

end Skyline
